import Mathlib

/-!
Verification development for the SpaceCat/Plane endless-runner repository.

The repository contains one Angular service (`GameStateService`, in
`src/unnamed/part_000`) and two variants ("skins") of the scene component
that drives the simulation loop:
  * the cat runner in `src/src/game/three-scene.component.ts`, and
  * the plane runner in `src/unnamed/part_002`.

We shallowly embed the simulation-relevant code.  JavaScript numbers are
modelled as exact rationals (`ℚ`); every numeric literal the source writes
(`0.001`, `2.5`, `0.016`, ...) denotes the corresponding rational.  The
pieces of the program that depend on browser geometry or randomness are
taken as oracle inputs of the tick:
  * `Math.random()` draws (spawn lane index and obstacle kind),
  * `Math.sin`/`Math.abs(Math.sin ...)` cosmetic motion values, and
  * the result of `THREE.Box3.setFromObject`-based box intersection inside
    `checkCollisions` (the mesh-derived boxes are not statable; the pure
    logic of `checkCollisions` over given boxes is embedded separately as
    `checkCollisionsCat` / `checkCollisionsPlane`).

The player's `rotation.x` is written by the cat component only with the
values `0` (in `resetScene`) and `-Math.PI / 2` (in `handleCrash`), both
rational multiples of π, so the field `rotXpi` stores the coefficient of π.
-/

/-- `GameStatus` from `src/unnamed/part_000`:
`export type GameStatus = 'MENU' | 'PLAYING' | 'GAME_OVER'`. -/
inductive GameStatus where
  | MENU
  | PLAYING
  | GAME_OVER
deriving DecidableEq

/-- The state held by `GameStateService` (`src/unnamed/part_000`):
the three Angular signals `status`, `score`, `speed`. -/
structure GameStateService where
  status : GameStatus
  score : ℚ
  speed : ℚ
deriving DecidableEq

namespace GameStateService

/-- `startGame()`: `score.set(0); speed.set(1.0); status.set('PLAYING')`. -/
def startGame (_g : GameStateService) : GameStateService :=
  { status := .PLAYING, score := 0, speed := 1.0 }

/-- `endGame()`: `status.set('GAME_OVER')`. -/
def endGame (g : GameStateService) : GameStateService :=
  { g with status := .GAME_OVER }

/-- `resetGame()`: `status.set('MENU'); score.set(0)` (note: `speed` is not
touched by `resetGame`). -/
def resetGame (g : GameStateService) : GameStateService :=
  { g with status := .MENU, score := 0 }

/-- The speed update inside `incrementScore`:
`this.speed.update(s => Math.min(s + 0.001, 2.5))`. -/
def bumpSpeed (s : ℚ) : ℚ := min (s + 0.001) 2.5

/-- `incrementScore(amount)`: guarded by `if (this.isPlaying())`, adds
`amount` to `score` and applies `bumpSpeed` to `speed`; otherwise it does
nothing.  `isPlaying` is the computed signal `status() === 'PLAYING'`. -/
def incrementScore (amount : ℚ) (g : GameStateService) : GameStateService :=
  if g.status = .PLAYING then
    { g with score := g.score + amount, speed := bumpSpeed g.speed }
  else g

end GameStateService

/-- An active obstacle of the cat component: the `THREE.Group` pushed by
`spawnObstacle`.  `x`/`z` are `position.x`/`position.z` of the group;
`rotX`/`rotY` are `children[0].rotation.x`/`.y` (incremented each frame in
`animate`); `isBox` records the cosmetic kind draw
(`Math.random() > 0.6 ? 'box' : 'tall'`). -/
structure Obstacle where
  x : ℚ
  z : ℚ
  rotX : ℚ
  rotY : ℚ
  isBox : Bool
deriving DecidableEq

/-- The simulation-relevant state of the cat `ThreeSceneComponent`
(`src/src/game/three-scene.component.ts`) together with its injected
`GameStateService`.  Player transform fields mirror `this.player.position`,
`.rotation` and `.scale.y`; `particlesZ` is `this.particles.position.z`. -/
structure CompState where
  gs : GameStateService
  currentLane : ℤ
  targetX : ℚ
  isJumping : Bool
  jumpVelocity : ℚ
  playerY : ℚ
  lastGameStatus : GameStatus
  obstacles : List Obstacle
  lastObstacleTime : ℤ
  posX : ℚ
  posY : ℚ
  posZ : ℚ
  rotXpi : ℚ
  rotY : ℚ
  rotZ : ℚ
  scaleY : ℚ
  particlesZ : ℚ
deriving DecidableEq

namespace CompState

/-- Field initializers of the component and of a fresh `THREE.Group`
(position `(0,0,0)`, rotation `0`, scale `1`), plus the service's signal
initial values (`MENU`, `0`, `1.0`). -/
def initState : CompState where
  gs := { status := .MENU, score := 0, speed := 1.0 }
  currentLane := 0
  targetX := 0
  isJumping := false
  jumpVelocity := 0
  playerY := 0
  lastGameStatus := .MENU
  obstacles := []
  lastObstacleTime := 0
  posX := 0
  posY := 0
  posZ := 0
  rotXpi := 0
  rotY := 0
  rotZ := 0
  scaleY := 1
  particlesZ := 0

/-- `laneWidth = 3.0`. -/
def laneWidth : ℚ := 3.0

/-- `gravity = -0.02`. -/
def gravity : ℚ := -0.02

/-- `jumpForce = 0.5`. -/
def jumpForce : ℚ := 0.5

/-- `obstacleSpawnRate = 1200` (ms). -/
def obstacleSpawnRate : ℚ := 1200

/-- The constant `deltaTime = 0.016` used by `animate`. -/
def deltaTime : ℚ := 0.016

/-- `changeLane(direction)` of the cat component: compute
`newLane = currentLane + direction`; if it lies in `[-1, 1]`, update
`currentLane`, `targetX = currentLane * laneWidth` and set
`player.rotation.z = -direction * 0.2`; otherwise do nothing. -/
def changeLane (direction : ℤ) (s : CompState) : CompState :=
  let newLane := s.currentLane + direction
  if -1 ≤ newLane ∧ newLane ≤ 1 then
    { s with currentLane := newLane, targetX := (newLane : ℚ) * laneWidth,
             rotZ := -(direction : ℚ) * 0.2 }
  else s

/-- `jump()`: `if (!this.isJumping) { this.isJumping = true;
this.jumpVelocity = this.jumpForce; }`. -/
def jump (s : CompState) : CompState :=
  if s.isJumping then s
  else { s with isJumping := true, jumpVelocity := jumpForce }

/-- `spawnObstacle()` with the two `Math.random()` draws supplied as inputs:
`laneIdx` indexes `lanes = [-1, 0, 1]` (the value of
`Math.floor(Math.random() * lanes.length)`), and `isBox` is the kind draw.
Guarded by `if (!this.gameState.isPlaying()) return`.  The new group is
created at `position.set(xPos, 0, -80)` and pushed onto `this.obstacles`. -/
def spawnObstacle (laneIdx : Fin 3) (isBox : Bool) (s : CompState) : CompState :=
  if s.gs.status = .PLAYING then
    let lane : ℤ := ([-1, 0, 1] : List ℤ).get laneIdx
    let xPos : ℚ := (lane : ℚ) * laneWidth
    { s with obstacles := s.obstacles ++ [{ x := xPos, z := -80, rotX := 0, rotY := 0, isBox := isBox }] }
  else s

/-- `resetScene()`: removes every obstacle from the scene and empties
`this.obstacles`; resets `currentLane`, `targetX`, `player.position`,
`player.rotation`, `isJumping`, `playerY`; records
`lastObstacleTime = Date.now()` (passed in as `now`).  `scale` is not
touched. -/
def resetScene (now : ℤ) (s : CompState) : CompState :=
  { s with obstacles := [], currentLane := 0, targetX := 0,
           posX := 0, posY := 0, posZ := 0,
           rotXpi := 0, rotY := 0, rotZ := 0,
           isJumping := false, playerY := 0,
           lastObstacleTime := now }

/-- `updatePlayer(deltaTime, now)` of the cat component.  `bob` is the
oracle value of `Math.abs(Math.sin(now * 0.015))` used by the run-bob in
the grounded branch.  Statement order follows the source: lateral lerp
(`lerpSpeed = 10`), lean lerp toward `(position.x - targetX) * 0.1`, jump
physics with landing clamp (land squash `0.85` / jump stretch `1.15`),
scale recovery, then `position.y = playerY`. -/
def updatePlayer (dt : ℚ) (bob : ℚ) (s : CompState) : CompState :=
  let posX1 := s.posX + (s.targetX - s.posX) * 10 * dt
  let rotZ1 := s.rotZ + ((posX1 - s.targetX) * 0.1 - s.rotZ) * 10 * dt
  let s1 :=
    if s.isJumping then
      let y1 := s.playerY + s.jumpVelocity
      let v1 := s.jumpVelocity + gravity
      if y1 ≤ 0 then
        { s with posX := posX1, rotZ := rotZ1, playerY := 0,
                 isJumping := false, jumpVelocity := 0, scaleY := 0.85 }
      else
        { s with posX := posX1, rotZ := rotZ1, playerY := y1,
                 jumpVelocity := v1, scaleY := 1.15 }
    else
      { s with posX := posX1, rotZ := rotZ1, playerY := bob * 0.1 }
  { s1 with scaleY := s1.scaleY + (1 - s1.scaleY) * 10 * dt, posY := s1.playerY }

/-- `handleCrash()` of the cat component: `gameState.endGame()`, then the
crash pose `player.rotation.x = -Math.PI / 2` (stored as π-coefficient
`-(1/2)`) and `player.position.y = 0.2`. -/
def handleCrash (s : CompState) : CompState :=
  { s with gs := s.gs.endGame, rotXpi := -(1/2), posY := 0.2 }

/-- One step of the obstacle loop body in `animate` (cat variant):
`obs.position.z += frameMove` and the cosmetic child rotations
`children[0].rotation.x += 0.02`, `children[0].rotation.y += 0.01`. -/
def advanceObstacle (fm : ℚ) (o : Obstacle) : Obstacle :=
  { o with z := o.z + fm, rotX := o.rotX + 0.02, rotY := o.rotY + 0.01 }

/-- The obstacle-advance loop of `animate`: iterates `i` from
`obstacles.length - 1` down to `0`; advances each obstacle and, when its
new `position.z > 15`, splices it out and calls
`gameState.incrementScore(50)`.  The recursion processes the tail (higher
indices) before the head, matching the backward iteration order of the
service calls. -/
def moveObstacles (fm : ℚ) : List Obstacle → GameStateService → List Obstacle × GameStateService
  | [], g => ([], g)
  | o :: rest, g =>
    let t := moveObstacles fm rest g
    let o1 := advanceObstacle fm o
    if 15 < o1.z then (t.1, t.2.incrementScore 50)
    else (o1 :: t.1, t.2)

end CompState

/-- An axis-aligned box, as `THREE.Box3` (its `min`/`max` vectors). -/
structure Box3 where
  minX : ℚ
  maxX : ℚ
  minY : ℚ
  maxY : ℚ
  minZ : ℚ
  maxZ : ℚ
deriving DecidableEq

/-- `THREE.Box3.intersectsBox(box)`: using six-separating-planes, returns
`!(box.max.x < this.min.x || box.min.x > this.max.x || ... y ... || ... z ...)`. -/
def intersectsBox (a b : Box3) : Bool :=
  !(decide (b.maxX < a.minX) || decide (b.minX > a.maxX) ||
    decide (b.maxY < a.minY) || decide (b.minY > a.maxY) ||
    decide (b.maxZ < a.minZ) || decide (b.minZ > a.maxZ))

/-- Collision-time view of one obstacle: the group's `position.x`,
`position.z`, and the world-space box that
`new THREE.Box3().setFromObject(obs)` produced (geometry-derived; taken as
input). -/
structure ObstacleHit where
  x : ℚ
  z : ℚ
  box : Box3
deriving DecidableEq

/-- The player-box shrink of the cat `checkCollisions`:
`pBox.min.x += 0.4; pBox.max.x -= 0.4; pBox.min.z += 0.4; pBox.max.z -= 0.4`
(the y-extent is not shrunk in this variant). -/
def shrinkPlayerBoxCat (b : Box3) : Box3 :=
  { b with minX := b.minX + 0.4, maxX := b.maxX - 0.4,
           minZ := b.minZ + 0.4, maxZ := b.maxZ - 0.4 }

/-- The obstacle-box shrink of the cat `checkCollisions`:
`oBox.min.x += 0.2; oBox.max.x -= 0.2; oBox.min.z += 0.2; oBox.max.z -= 0.2`. -/
def shrinkObstacleBoxCat (b : Box3) : Box3 :=
  { b with minX := b.minX + 0.2, maxX := b.maxX - 0.2,
           minZ := b.minZ + 0.2, maxZ := b.maxZ - 0.2 }

/-- `checkCollisions()` of the cat component as a function of the player
position (`pX`, `pZ`), the player's un-shrunk world box and the obstacle
views, returning the obstacle that triggers `handleCrash` (the loop stops
at the first hit).  An obstacle is only box-tested when
`Math.abs(obs.position.z - pZ) < 1.5` and
`Math.abs(obs.position.x - pX) < 1.0`. -/
def checkCollisionsCat (pX pZ : ℚ) (pBox : Box3) : List ObstacleHit → Option ObstacleHit
  | [] => none
  | o :: rest =>
    if |o.z - pZ| < 1.5 then
      if |o.x - pX| < 1.0 then
        if intersectsBox (shrinkPlayerBoxCat pBox) (shrinkObstacleBoxCat o.box) then some o
        else checkCollisionsCat pX pZ pBox rest
      else checkCollisionsCat pX pZ pBox rest
    else checkCollisionsCat pX pZ pBox rest

/-- The player-box shrink of the plane `checkCollisions`
(`src/unnamed/part_002`): `0.3` on x, `0.2` on y and `0.2` on z, i.e. on
every axis. -/
def shrinkPlayerBoxPlane (b : Box3) : Box3 :=
  { b with minX := b.minX + 0.3, maxX := b.maxX - 0.3,
           minY := b.minY + 0.2, maxY := b.maxY - 0.2,
           minZ := b.minZ + 0.2, maxZ := b.maxZ - 0.2 }

/-- The obstacle-box shrink of the plane `checkCollisions`: `0.2` on x and
z. -/
def shrinkObstacleBoxPlane (b : Box3) : Box3 :=
  { b with minX := b.minX + 0.2, maxX := b.maxX - 0.2,
           minZ := b.minZ + 0.2, maxZ := b.maxZ - 0.2 }

/-- `checkCollisions()` of the plane component: no distance gates; the
player box is shrunk once and each obstacle box is shrunk and tested in
pool order, crashing on the first intersection. -/
def checkCollisionsPlane (pBox : Box3) : List ObstacleHit → Option ObstacleHit
  | [] => none
  | o :: rest =>
    if intersectsBox (shrinkPlayerBoxPlane pBox) (shrinkObstacleBoxPlane o.box) then some o
    else checkCollisionsPlane pBox rest

namespace CompState

/-- Per-tick oracle inputs of `animate`: the wall clock (`Date.now()`), the
two `Math.random()` draws consumed by `spawnObstacle` when it fires, the
`Math.sin`-derived cosmetic values, and `hitTest`, the geometry oracle
giving the result of the shrunk-box intersection test of `checkCollisions`
for each obstacle on this frame. -/
structure TickEnv where
  now : ℤ
  laneIdx : Fin 3
  isBox : Bool
  absSinBob : ℚ
  menuSin1 : ℚ
  menuSin2 : ℚ
  hitTest : Obstacle → Bool

/-- The crash condition of the cat `checkCollisions` inside a tick: some
obstacle passes the two distance gates and its shrunk-box test (the
geometry part is `env.hitTest`).  `handleCrash` fires at the first such
obstacle and the loop returns; since `handleCrash` does not depend on
which obstacle hit, firing it once on `any` is equivalent. -/
def crashHit (env : TickEnv) (s : CompState) : Bool :=
  s.obstacles.any fun o =>
    decide (|o.z - s.posZ| < 1.5) && decide (|o.x - s.posX| < 1.0) && env.hitTest o

/-- The `PLAYING` physics of `animate` before the collision check:
`frameMove = 30 * speed * deltaTime`; the obstacle advance/despawn loop;
the spawn check `now - lastObstacleTime > obstacleSpawnRate / speed`
(reading `speed` after the despawn increments, as the source does); the
particle scroll with its `> 50` wrap; then `updatePlayer`. -/
def tickPhysics (env : TickEnv) (s : CompState) : CompState :=
  let frameMove := 30 * s.gs.speed * deltaTime
  let mo := moveObstacles frameMove s.obstacles s.gs
  let s2 := { s with obstacles := mo.1, gs := mo.2 }
  let s3 :=
    if ((env.now - s2.lastObstacleTime : ℤ) : ℚ) > obstacleSpawnRate / s2.gs.speed then
      { spawnObstacle env.laneIdx env.isBox s2 with lastObstacleTime := env.now }
    else s2
  let s4 := { s3 with particlesZ :=
    if s3.particlesZ + frameMove * 0.2 > 50 then 0 else s3.particlesZ + frameMove * 0.2 }
  updatePlayer deltaTime env.absSinBob s4

/-- The whole `PLAYING` branch of `animate`: physics, then
`checkCollisions` which calls `handleCrash` on a hit. -/
def playingTick (env : TickEnv) (s : CompState) : CompState :=
  let p := tickPhysics env s
  if crashHit env p then handleCrash p else p

/-- The `MENU` branch of `animate` (cat): cosmetic idle,
`position.x = 0`, `position.y = sin(now*0.002)*0.5 + 1`,
`rotation.y = sin(now*0.001)*0.3` (sines as oracles). -/
def menuTick (env : TickEnv) (s : CompState) : CompState :=
  { s with posX := 0, posY := env.menuSin1 * 0.5 + 1, rotY := env.menuSin2 * 0.3 }

/-- One invocation of `animate` (cat component), minus the render call.
It reads `status` once; if it is `PLAYING` and the previous tick's status
was not, it performs the synchronous `resetScene` first; then it stores
`lastGameStatus = status` and runs the branch for `status`
(`GAME_OVER` does nothing). -/
def animate (env : TickEnv) (s : CompState) : CompState :=
  let s1 := if s.gs.status = .PLAYING ∧ s.lastGameStatus ≠ .PLAYING
            then resetScene env.now s else s
  let s2 := { s1 with lastGameStatus := s.gs.status }
  match s.gs.status with
  | .PLAYING => playingTick env s2
  | .MENU => menuTick env s2
  | .GAME_OVER => s2

/-- The external events that drive the program state: the two UI buttons
(`startGame` is reachable from the menu screen and the game-over screen,
`resetGame` only from the game-over screen — see `game-ui.component.ts`,
whose overlays render under `isMenu()` / `isGameOver()`), the three
keyboard commands (gated by `isPlaying()` in `handleKeyboardEvent`), and
an animation frame. -/
inductive Event where
  | uiStart
  | uiReset
  | keyLeft
  | keyRight
  | keyJump
  | frame (env : TickEnv)

/-- The effect of one event on the program state. -/
def step (s : CompState) : Event → CompState
  | .uiStart =>
    if s.gs.status = .MENU ∨ s.gs.status = .GAME_OVER then { s with gs := s.gs.startGame } else s
  | .uiReset =>
    if s.gs.status = .GAME_OVER then { s with gs := s.gs.resetGame } else s
  | .keyLeft => if s.gs.status = .PLAYING then changeLane (-1) s else s
  | .keyRight => if s.gs.status = .PLAYING then changeLane 1 s else s
  | .keyJump => if s.gs.status = .PLAYING then jump s else s
  | .frame env => animate env s

/-- A state is reachable when some event trace leads to it from the
initial state. -/
def Reachable (s : CompState) : Prop :=
  ∃ evs : List Event, s = evs.foldl step initState


/-- A trace of events all of whose intermediate states have
`status == 'PLAYING'` ("operations performed while status is Playing"). -/
def PlayingTrace : CompState → List Event → Prop
  | s, [] => s.gs.status = .PLAYING
  | s, e :: es => s.gs.status = .PLAYING ∧ PlayingTrace (step s e) es

/-- The vertical-physics projection of `updatePlayer`, acting on the triple
`(playerY, jumpVelocity, isJumping)`.  The grounded branch writes the
run-bob `bob * 0.1`; the airborne branch is the jump integration with the
landing clamp. -/
def vstep (bob : ℚ) (x : ℚ × ℚ × Bool) : ℚ × ℚ × Bool :=
  if x.2.2 then
    let y1 := x.1 + x.2.1
    if y1 ≤ 0 then (0, 0, false) else (y1, x.2.1 + gravity, true)
  else (bob * 0.1, x.2.1, false)

/-- The vertical triple right after a `jump()` from rest:
`playerY = 0`, `jumpVelocity = jumpForce`, airborne. -/
def jumpStart : ℚ × ℚ × Bool := (0, jumpForce, true)

/-- `k` consecutive `updatePlayer` ticks (the per-frame player advance),
with a per-tick bob oracle. -/
def arc (dt : ℚ) (bobs : ℕ → ℚ) (s : CompState) : ℕ → CompState
  | 0 => s
  | k + 1 => updatePlayer dt (bobs k) (arc dt bobs s k)

/-- The vertical triple in hundredths of a unit: an integer mirror of
`vstep 0` used to evaluate the jump arc exactly (`jumpForce = 50/100`,
`gravity = -2/100`). -/
def vstepInt (x : ℤ × ℤ × Bool) : ℤ × ℤ × Bool :=
  if x.2.2 then
    let y1 := x.1 + x.2.1
    if y1 ≤ 0 then (0, 0, false) else (y1, x.2.1 - 2, true)
  else (0, x.2.1, false)

/-- Interpret a hundredths-scaled vertical triple back into rationals. -/
def ratOfCenti (x : ℤ × ℤ × Bool) : ℚ × ℚ × Bool :=
  ((x.1 : ℚ) / 100, (x.2.1 : ℚ) / 100, x.2.2)

/-- The two lateral commands of the input surface (`ArrowLeft`/`a` and
`ArrowRight`/`d`). -/
inductive LaneCmd where
  | moveLeft
  | moveRight
deriving DecidableEq

/-- The `direction` argument the keyboard handler passes to `changeLane`. -/
def laneCmdDir : LaneCmd → ℤ
  | .moveLeft => -1
  | .moveRight => 1

/-- Apply one lateral command, as `handleKeyboardEvent` does while playing. -/
def applyLaneCmd (s : CompState) (c : LaneCmd) : CompState :=
  changeLane (laneCmdDir c) s

/-- A concrete reachable state: the initial state after the START button. -/
def startedState : CompState := List.foldl step initState [Event.uiStart]

/-- A concrete tick environment with no spawn randomness consumed, zero
sine oracles, and a geometry oracle that reports no box intersection. -/
def quietEnv : TickEnv :=
  { now := 0, laneIdx := 0, isBox := true, absSinBob := 0,
    menuSin1 := 0, menuSin2 := 0, hitTest := fun _ => false }

/-- A concrete mid-session playing state with one obstacle right at the
player's position (used to exercise the crash path). -/
def crashState : CompState :=
  { initState with gs := { status := .PLAYING, score := 0, speed := 1 },
                   lastGameStatus := .PLAYING,
                   obstacles := [{ x := 0, z := 0, rotX := 0, rotY := 0, isBox := true }] }

/-- A tick environment whose geometry oracle reports an intersection for
every obstacle. -/
def crashEnv : TickEnv :=
  { now := 0, laneIdx := 0, isBox := true, absSinBob := 0,
    menuSin1 := 0, menuSin2 := 0, hitTest := fun _ => true }

/-- A concrete player world box (x and z spans `[-1.5, 1.5]`, y span
`[0, 2]`). -/
def demoPlayerBox : Box3 :=
  { minX := -1.5, maxX := 1.5, minY := 0, maxY := 2, minZ := -1.5, maxZ := 1.5 }

/-- A concrete obstacle whose center sits `1.1` lateral units from the
player (outside the cat gate) but whose box overlaps the player box. -/
def demoGateObstacle : ObstacleHit :=
  { x := 1.1, z := 0,
    box := { minX := 0.2, maxX := 2, minY := 0, maxY := 2, minZ := -0.9, maxZ := 0.9 } }

/-- A concrete obstacle one frame short of the despawn threshold. -/
def demoObstacle : Obstacle := { x := 0, z := 14.5, rotX := 0, rotY := 0, isBox := true }

/-- A concrete playing service state. -/
def demoPlayingService : GameStateService := { status := .PLAYING, score := 0, speed := 1 }

/-- A concrete menu service state with nonzero score and speed. -/
def demoMenuService : GameStateService := { status := .MENU, score := 3, speed := 2 }

/-- A concrete airborne component state. -/
def airborneState : CompState := jump initState

/-- A concrete state in the leftmost lane. -/
def leftmostState : CompState := applyLaneCmd initState .moveLeft

end CompState

namespace GameStateService

@[simp] lemma incrementScore_status (a : ℚ) (g : GameStateService) :
    (g.incrementScore a).status = g.status := by
  unfold incrementScore; split <;> rfl

@[simp] lemma endGame_speed (g : GameStateService) : g.endGame.speed = g.speed := rfl

@[simp] lemma endGame_score (g : GameStateService) : g.endGame.score = g.score := rfl

lemma bumpSpeed_le (s : ℚ) : bumpSpeed s ≤ 2.5 := min_le_right _ _

lemma one_le_bumpSpeed {s : ℚ} (h : 1 ≤ s) : 1 ≤ bumpSpeed s := by
  refine le_min (by linarith) (by norm_num)

lemma le_bumpSpeed_self {s : ℚ} (h : s ≤ 2.5) : s ≤ bumpSpeed s := by
  refine le_min (by linarith) h

lemma incrementScore_speed_bounds (a : ℚ) (g : GameStateService)
    (h1 : 1 ≤ g.speed) (h2 : g.speed ≤ 2.5) :
    1 ≤ (g.incrementScore a).speed ∧ (g.incrementScore a).speed ≤ 2.5 ∧
      g.speed ≤ (g.incrementScore a).speed := by
  unfold incrementScore
  split
  · exact ⟨one_le_bumpSpeed h1, bumpSpeed_le _, le_bumpSpeed_self h2⟩
  · exact ⟨h1, h2, le_refl _⟩

lemma incrementScore_not_playing (a : ℚ) (g : GameStateService)
    (h : g.status ≠ .PLAYING) : g.incrementScore a = g := by
  unfold incrementScore
  simp [h]

end GameStateService

namespace CompState

@[simp] lemma changeLane_gs (d : ℤ) (s : CompState) : (changeLane d s).gs = s.gs := by
  unfold changeLane; dsimp only; split <;> rfl

@[simp] lemma jump_gs (s : CompState) : (jump s).gs = s.gs := by
  unfold jump; split <;> rfl

@[simp] lemma spawnObstacle_gs (i : Fin 3) (b : Bool) (s : CompState) :
    (spawnObstacle i b s).gs = s.gs := by
  unfold spawnObstacle; split <;> rfl

@[simp] lemma updatePlayer_gs (dt bob : ℚ) (s : CompState) :
    (updatePlayer dt bob s).gs = s.gs := by
  unfold updatePlayer; dsimp only
  split
  · split <;> rfl
  · rfl

@[simp] lemma resetScene_gs (n : ℤ) (s : CompState) : (resetScene n s).gs = s.gs := rfl

@[simp] lemma menuTick_gs (env : TickEnv) (s : CompState) : (menuTick env s).gs = s.gs := rfl

@[simp] lemma handleCrash_gs (s : CompState) : (handleCrash s).gs = s.gs.endGame := rfl

@[simp] lemma moveObstacles_status (fm : ℚ) (l : List Obstacle) (g : GameStateService) :
    (moveObstacles fm l g).2.status = g.status := by
  induction l with
  | nil => rfl
  | cons o rest ih =>
    unfold moveObstacles
    dsimp only
    split
    · simpa using ih
    · simpa using ih

lemma moveObstacles_speed_bounds (fm : ℚ) (l : List Obstacle) (g : GameStateService)
    (h1 : 1 ≤ g.speed) (h2 : g.speed ≤ 2.5) :
    1 ≤ (moveObstacles fm l g).2.speed ∧ (moveObstacles fm l g).2.speed ≤ 2.5 ∧
      g.speed ≤ (moveObstacles fm l g).2.speed := by
  induction l with
  | nil => exact ⟨h1, h2, le_refl _⟩
  | cons o rest ih =>
    obtain ⟨i1, i2, i3⟩ := ih
    unfold moveObstacles
    dsimp only
    split
    · have hb := GameStateService.incrementScore_speed_bounds 50 (moveObstacles fm rest g).2 i1 i2
      exact ⟨hb.1, hb.2.1, le_trans i3 hb.2.2⟩
    · exact ⟨i1, i2, i3⟩

@[simp] lemma setSpawnTime_gs (s : CompState) (n : ℤ) :
    ({ s with lastObstacleTime := n } : CompState).gs = s.gs := rfl

lemma tickPhysics_gs (env : TickEnv) (s : CompState) :
    (tickPhysics env s).gs = (moveObstacles (30 * s.gs.speed * deltaTime) s.obstacles s.gs).2 := by
  unfold tickPhysics
  dsimp only
  rw [updatePlayer_gs]
  split
  · simp
  · rfl

lemma playingTick_speed (env : TickEnv) (s : CompState) :
    (playingTick env s).gs.speed = (moveObstacles (30 * s.gs.speed * deltaTime) s.obstacles s.gs).2.speed := by
  unfold playingTick
  dsimp only
  split
  · rw [handleCrash_gs, GameStateService.endGame_speed, tickPhysics_gs]
  · rw [tickPhysics_gs]

@[simp] lemma updatePlayer_lastGameStatus (dt bob : ℚ) (s : CompState) :
    (updatePlayer dt bob s).lastGameStatus = s.lastGameStatus := by
  unfold updatePlayer; dsimp only
  split
  · split <;> rfl
  · rfl

@[simp] lemma spawnObstacle_lastGameStatus (i : Fin 3) (b : Bool) (s : CompState) :
    (spawnObstacle i b s).lastGameStatus = s.lastGameStatus := by
  unfold spawnObstacle; split <;> rfl

@[simp] lemma tickPhysics_lastGameStatus (env : TickEnv) (s : CompState) :
    (tickPhysics env s).lastGameStatus = s.lastGameStatus := by
  unfold tickPhysics
  dsimp only
  rw [updatePlayer_lastGameStatus]
  split
  · simp
  · rfl

@[simp] lemma handleCrash_lastGameStatus (s : CompState) :
    (handleCrash s).lastGameStatus = s.lastGameStatus := rfl

@[simp] lemma menuTick_lastGameStatus (env : TickEnv) (s : CompState) :
    (menuTick env s).lastGameStatus = s.lastGameStatus := rfl

@[simp] lemma playingTick_lastGameStatus (env : TickEnv) (s : CompState) :
    (playingTick env s).lastGameStatus = s.lastGameStatus := by
  unfold playingTick
  dsimp only
  split
  · rw [handleCrash_lastGameStatus]
    exact tickPhysics_lastGameStatus env s
  · exact tickPhysics_lastGameStatus env s

@[simp] lemma animate_lastGameStatus (env : TickEnv) (s : CompState) :
    (animate env s).lastGameStatus = s.gs.status := by
  unfold animate
  dsimp only
  cases s.gs.status <;> simp

/-- The program invariant used to settle C1, C2 and C3: the speed bounds,
and the fact that a state seen by a tick as a fresh transition into
`PLAYING` always carries the freshly reset score and speed (the only write
of `'PLAYING'` to the status signal is `startGame`, which resets both). -/
def Inv (s : CompState) : Prop :=
  1 ≤ s.gs.speed ∧ s.gs.speed ≤ 2.5 ∧
    (s.gs.status = .PLAYING ∧ s.lastGameStatus ≠ .PLAYING →
      s.gs.score = 0 ∧ s.gs.speed = 1)

lemma inv_initState : Inv initState := by
  refine ⟨by norm_num [initState], by norm_num [initState], ?_⟩
  intro h
  simp [initState] at h


@[simp] lemma changeLane_lastGameStatus (d : ℤ) (s : CompState) :
    (changeLane d s).lastGameStatus = s.lastGameStatus := by
  unfold changeLane; dsimp only; split <;> rfl

@[simp] lemma jump_lastGameStatus (s : CompState) :
    (jump s).lastGameStatus = s.lastGameStatus := by
  unfold jump; split <;> rfl

lemma animate_gs_of_menu (env : TickEnv) (s : CompState) (hs : s.gs.status = .MENU) :
    (animate env s).gs = s.gs := by
  unfold animate
  simp only [hs]
  rw [if_neg (by simp)]
  rfl

lemma animate_gs_of_gameover (env : TickEnv) (s : CompState) (hs : s.gs.status = .GAME_OVER) :
    (animate env s).gs = s.gs := by
  unfold animate
  simp only [hs]
  rw [if_neg (by simp)]

lemma animate_speed_of_playing (env : TickEnv) (s : CompState) (hs : s.gs.status = .PLAYING) :
    ∃ L : List Obstacle,
      (animate env s).gs.speed = (moveObstacles (30 * s.gs.speed * deltaTime) L s.gs).2.speed := by
  unfold animate
  simp only [hs]
  by_cases hl : s.lastGameStatus = .PLAYING
  · rw [if_neg (by simp [hl])]
    exact ⟨s.obstacles, playingTick_speed env _⟩
  · rw [if_pos (by simp [hl])]
    exact ⟨[], playingTick_speed env _⟩

lemma inv_step (s : CompState) (e : Event) (h : Inv s) : Inv (step s e) := by
  obtain ⟨h1, h2, h3⟩ := h
  cases e with
  | uiStart =>
    simp only [step]
    split
    · refine ⟨by norm_num [GameStateService.startGame], by norm_num [GameStateService.startGame], ?_⟩
      intro _
      exact ⟨rfl, by norm_num [GameStateService.startGame]⟩
    · exact ⟨h1, h2, h3⟩
  | uiReset =>
    simp only [step]
    split
    · refine ⟨h1, h2, ?_⟩
      intro hc
      simp [GameStateService.resetGame] at hc
    · exact ⟨h1, h2, h3⟩
  | keyLeft =>
    simp only [step]
    split
    · exact ⟨by simpa using h1, by simpa using h2, by simpa using h3⟩
    · exact ⟨h1, h2, h3⟩
  | keyRight =>
    simp only [step]
    split
    · exact ⟨by simpa using h1, by simpa using h2, by simpa using h3⟩
    · exact ⟨h1, h2, h3⟩
  | keyJump =>
    simp only [step]
    split
    · exact ⟨by simpa using h1, by simpa using h2, by simpa using h3⟩
    · exact ⟨h1, h2, h3⟩
  | frame env =>
    show Inv (animate env s)
    rcases hs : s.gs.status with _ | _ | _
    · rw [Inv, animate_gs_of_menu env s hs]
      refine ⟨h1, h2, ?_⟩
      rintro ⟨hc, -⟩
      rw [hs] at hc
      cases hc
    · obtain ⟨L, hL⟩ := animate_speed_of_playing env s hs
      have hb := moveObstacles_speed_bounds (30 * s.gs.speed * deltaTime) L s.gs h1 h2
      refine ⟨by rw [hL]; exact hb.1, by rw [hL]; exact hb.2.1, ?_⟩
      rintro ⟨-, hc⟩
      rw [animate_lastGameStatus, hs] at hc
      exact absurd rfl hc
    · rw [Inv, animate_gs_of_gameover env s hs]
      refine ⟨h1, h2, ?_⟩
      rintro ⟨hc, -⟩
      rw [hs] at hc
      cases hc

lemma inv_foldl (evs : List Event) :
    ∀ s : CompState, Inv s → Inv (evs.foldl step s) := by
  induction evs with
  | nil => intro s hInv; exact hInv
  | cons e rest ih =>
    intro s hInv
    exact ih (step s e) (inv_step s e hInv)

lemma inv_reachable {s : CompState} (h : Reachable s) : Inv s := by
  obtain ⟨evs, rfl⟩ := h
  exact inv_foldl evs initState inv_initState

lemma reachable_step {s : CompState} (h : Reachable s) (e : Event) :
    Reachable (step s e) := by
  obtain ⟨evs, rfl⟩ := h
  exact ⟨evs ++ [e], by rw [List.foldl_append]; rfl⟩

lemma incrScore_playing (a : ℚ) {g : GameStateService} (h : g.status = .PLAYING) :
    g.incrementScore a
      = { g with score := g.score + a, speed := GameStateService.bumpSpeed g.speed } := by
  unfold GameStateService.incrementScore
  rw [if_pos h]

lemma moveObstacles_spec (fm : ℚ) (l : List Obstacle) (g : GameStateService)
    (hg : g.status = .PLAYING) :
    (moveObstacles fm l g).1
        = (l.map (advanceObstacle fm)).filter (fun o => decide (o.z ≤ 15)) ∧
    (moveObstacles fm l g).2.score
        = g.score + 50 * (((l.map (advanceObstacle fm)).countP (fun o => decide (15 < o.z)) : ℕ) : ℚ) ∧
    (moveObstacles fm l g).2.speed
        = GameStateService.bumpSpeed^[(l.map (advanceObstacle fm)).countP (fun o => decide (15 < o.z))] g.speed := by
  induction l with
  | nil => exact ⟨rfl, by simp [moveObstacles], by simp [moveObstacles]⟩
  | cons o rest ih =>
    obtain ⟨i1, i2, i3⟩ := ih
    have hstat : (moveObstacles fm rest g).2.status = .PLAYING := by
      rw [moveObstacles_status]; exact hg
    unfold moveObstacles
    dsimp only
    by_cases hz : 15 < (advanceObstacle fm o).z
    · rw [if_pos hz]
      refine ⟨?_, ?_, ?_⟩
      · rw [List.map_cons, List.filter_cons, if_neg (by simpa using not_le.mpr hz)]
        exact i1
      · rw [incrScore_playing 50 hstat]
        dsimp only
        rw [i2, List.map_cons, List.countP_cons, decide_eq_true hz]
        norm_num
        ring
      · rw [incrScore_playing 50 hstat]
        dsimp only
        rw [i3, List.map_cons, List.countP_cons, decide_eq_true hz]
        norm_num [Function.iterate_succ_apply']
    · rw [if_neg hz]
      refine ⟨?_, ?_, ?_⟩
      · dsimp only
        rw [List.map_cons, List.filter_cons, if_pos (by simpa using not_lt.mp hz)]
        rw [i1]
      · dsimp only
        rw [i2, List.map_cons, List.countP_cons, decide_eq_false hz]
        norm_num
      · dsimp only
        rw [i3, List.map_cons, List.countP_cons, decide_eq_false hz]
        norm_num

lemma updatePlayer_vert (dt bob : ℚ) (s : CompState) :
    ((updatePlayer dt bob s).playerY, (updatePlayer dt bob s).jumpVelocity,
      (updatePlayer dt bob s).isJumping)
      = vstep bob (s.playerY, s.jumpVelocity, s.isJumping) := by
  unfold updatePlayer vstep
  dsimp only
  cases hj : s.isJumping with
  | false => simp [hj]
  | true =>
    by_cases hy : s.playerY + s.jumpVelocity ≤ 0
    · simp [hj, hy]
    · simp [hj, hy]

lemma vstep_of_airborne (b : ℚ) (x : ℚ × ℚ × Bool) (hx : x.2.2 = true) :
    vstep b x = vstep 0 x := by
  unfold vstep
  rw [hx]
  simp

lemma vstep_ratOfCenti (x : ℤ × ℤ × Bool) :
    vstep 0 (ratOfCenti x) = ratOfCenti (vstepInt x) := by
  unfold vstep vstepInt ratOfCenti
  dsimp only
  cases hj : x.2.2 with
  | false =>
    simp only [hj, Bool.false_eq_true, if_false]
    norm_num
  | true =>
    by_cases hy : (x.1 : ℚ) / 100 + (x.2.1 : ℚ) / 100 ≤ 0
    · have hyI : x.1 + x.2.1 ≤ 0 := by
        have : ((x.1 + x.2.1 : ℤ) : ℚ) ≤ 0 := by push_cast; linarith
        exact_mod_cast this
      simp only [hj, if_true, if_pos hy, if_pos hyI]
      norm_num
    · have hyI : ¬ x.1 + x.2.1 ≤ 0 := by
        intro hcon
        have : ((x.1 + x.2.1 : ℤ) : ℚ) ≤ 0 := by exact_mod_cast hcon
        push_cast at this
        linarith
      simp only [hj, if_true, if_neg hy, if_neg hyI]
      refine Prod.ext ?_ (Prod.ext ?_ rfl)
      · push_cast
        ring
      · dsimp only
        rw [gravity]
        push_cast
        ring

lemma iterate_vstep_centi (k : ℕ) :
    (vstep 0)^[k] jumpStart = ratOfCenti (vstepInt^[k] (0, 50, true)) := by
  induction k with
  | zero =>
    simp only [Function.iterate_zero_apply]
    unfold jumpStart ratOfCenti jumpForce
    norm_num
  | succ k ih =>
    rw [Function.iterate_succ_apply', Function.iterate_succ_apply', ih, vstep_ratOfCenti]

lemma vstep_airborne_until : ∀ k : Fin 51, ((vstep 0)^[(k : ℕ)] jumpStart).2.2 = true := by
  have hI : ∀ k : Fin 51, (vstepInt^[(k : ℕ)] (0, 50, true)).2.2 = true := by decide
  intro k
  rw [iterate_vstep_centi]
  exact hI k

set_option maxRecDepth 4000 in
lemma vstep_lands : (vstep 0)^[51] jumpStart = (0, 0, false) := by
  rw [iterate_vstep_centi]
  have hI : vstepInt^[51] (0, 50, true) = (0, 0, false) := by decide
  rw [hI]
  unfold ratOfCenti
  norm_num

lemma vstep_nonneg : ∀ k : Fin 52, 0 ≤ ((vstep 0)^[(k : ℕ)] jumpStart).1 := by
  have hI : ∀ k : Fin 52, 0 ≤ (vstepInt^[(k : ℕ)] (0, 50, true)).1 := by decide
  intro k
  rw [iterate_vstep_centi]
  refine div_nonneg ?_ (by norm_num)
  exact_mod_cast hI k

lemma arc_vert (dt : ℚ) (bobs : ℕ → ℚ) (s : CompState)
    (h0 : s.playerY = 0) (hj : s.isJumping = false) :
    ∀ k, k ≤ 51 →
      ((arc dt bobs (jump s) k).playerY, (arc dt bobs (jump s) k).jumpVelocity,
        (arc dt bobs (jump s) k).isJumping) = (vstep 0)^[k] jumpStart := by
  intro k
  induction k with
  | zero =>
    intro _
    simp [arc, jump, hj, h0, jumpStart]
  | succ k ih =>
    intro hk
    have h1 := ih (by omega)
    have hair : ((vstep 0)^[k] jumpStart).2.2 = true := vstep_airborne_until ⟨k, by omega⟩
    calc ((arc dt bobs (jump s) (k + 1)).playerY, (arc dt bobs (jump s) (k + 1)).jumpVelocity,
          (arc dt bobs (jump s) (k + 1)).isJumping)
        = vstep (bobs k) ((arc dt bobs (jump s) k).playerY, (arc dt bobs (jump s) k).jumpVelocity,
            (arc dt bobs (jump s) k).isJumping) := updatePlayer_vert dt (bobs k) _
      _ = vstep (bobs k) ((vstep 0)^[k] jumpStart) := by rw [h1]
      _ = vstep 0 ((vstep 0)^[k] jumpStart) := vstep_of_airborne _ _ hair
      _ = (vstep 0)^[k + 1] jumpStart := (Function.iterate_succ_apply' _ _ _).symm

lemma step_speed_mono (s : CompState) (e : Event) (hInv : Inv s)
    (hp : s.gs.status = .PLAYING) :
    s.gs.speed ≤ (step s e).gs.speed := by
  cases e with
  | uiStart =>
    simp only [step]
    rw [if_neg (by simp [hp])]
  | uiReset =>
    simp only [step]
    rw [if_neg (by simp [hp])]
  | keyLeft =>
    simp only [step]
    split <;> simp
  | keyRight =>
    simp only [step]
    split <;> simp
  | keyJump =>
    simp only [step]
    split <;> simp
  | frame env =>
    show s.gs.speed ≤ (animate env s).gs.speed
    obtain ⟨L, hL⟩ := animate_speed_of_playing env s hp
    rw [hL]
    exact (moveObstacles_speed_bounds _ L s.gs hInv.1 hInv.2.1).2.2

lemma playingTrace_speed_mono :
    ∀ (evs : List Event) (s : CompState), Reachable s → PlayingTrace s evs →
      s.gs.speed ≤ (evs.foldl step s).gs.speed := by
  intro evs
  induction evs with
  | nil => intro s _ _; exact le_refl _
  | cons e es ih =>
    intro s hr hpt
    obtain ⟨hp, hpt2⟩ := hpt
    calc s.gs.speed ≤ (step s e).gs.speed := step_speed_mono s e (inv_reachable hr) hp
      _ ≤ (es.foldl step (step s e)).gs.speed := ih (step s e) (reachable_step hr e) hpt2

/-- C1: on the first tick whose status is `PLAYING` while the previous
tick's status was not (any prior session: menu, game over, or after a
reset), `animate` performs the synchronous `resetScene` before any
physics or collision step of that tick, and the post-reset pre-physics
state satisfies `score == 0`, `speed == 1.0`, an empty obstacle pool and
`lane == 0`, for every reachable prior state. -/
theorem playing_entry_synchronous_reset (s : CompState) (env : TickEnv)
    (hr : Reachable s) (hp : s.gs.status = .PLAYING) (hl : s.lastGameStatus ≠ .PLAYING) :
    animate env s = playingTick env { resetScene env.now s with lastGameStatus := .PLAYING } ∧
    (resetScene env.now s).gs.score = 0 ∧
    (resetScene env.now s).gs.speed = 1 ∧
    (resetScene env.now s).obstacles = [] ∧
    (resetScene env.now s).currentLane = 0 := by
  have hA := (inv_reachable hr).2.2 ⟨hp, hl⟩
  refine ⟨?_, hA.1, hA.2, rfl, rfl⟩
  unfold animate
  simp only [hp]
  rw [if_pos ⟨trivial, hl⟩]

/-- Witness for C1 at the state reached by pressing START from the menu. -/
theorem playing_entry_synchronous_reset_witness :
    (startedState.gs.status = .PLAYING ∧ startedState.lastGameStatus ≠ .PLAYING) ∧
    ((resetScene 0 startedState).gs.score = 0 ∧
      (resetScene 0 startedState).gs.speed = 1 ∧
      (resetScene 0 startedState).obstacles = [] ∧
      (resetScene 0 startedState).currentLane = 0) :=
  ⟨⟨by decide, by decide⟩,
    (playing_entry_synchronous_reset startedState quietEnv ⟨[Event.uiStart], rfl⟩
      (by decide) (by decide)).2⟩

/-- C2: on a `PLAYING` tick the obstacle loop keeps exactly the advanced
obstacles with `position.z ≤ 15`, removes each advanced obstacle with
`position.z > 15`, adds exactly `50` to the score per removal, and applies
`speed := min(speed + 0.001, 2.5)` once per removal; moreover in every
reachable state the speed never exceeds `2.5`. -/
theorem despawn_scoring_and_speed_cap :
    (∀ (fm : ℚ) (l : List Obstacle) (g : GameStateService), g.status = .PLAYING →
      (moveObstacles fm l g).1
          = (l.map (advanceObstacle fm)).filter (fun o => decide (o.z ≤ 15)) ∧
      (moveObstacles fm l g).2.score
          = g.score + 50 * (((l.map (advanceObstacle fm)).countP (fun o => decide (15 < o.z)) : ℕ) : ℚ) ∧
      (moveObstacles fm l g).2.speed
          = GameStateService.bumpSpeed^[(l.map (advanceObstacle fm)).countP (fun o => decide (15 < o.z))] g.speed) ∧
    (∀ s : CompState, Reachable s → s.gs.speed ≤ 2.5) :=
  ⟨moveObstacles_spec, fun _ hr => (inv_reachable hr).2.1⟩

/-- Witness for C2: a single obstacle crossing the threshold, and the
initial state's speed bound. -/
theorem despawn_scoring_and_speed_cap_witness :
    (demoPlayingService.status = .PLAYING ∧
      ((moveObstacles 1 [demoObstacle] demoPlayingService).1
          = (([demoObstacle].map (advanceObstacle 1)).filter (fun o => decide (o.z ≤ 15))) ∧
        (moveObstacles 1 [demoObstacle] demoPlayingService).2.score
          = demoPlayingService.score +
              50 * ((([demoObstacle].map (advanceObstacle 1)).countP (fun o => decide (15 < o.z)) : ℕ) : ℚ) ∧
        (moveObstacles 1 [demoObstacle] demoPlayingService).2.speed
          = GameStateService.bumpSpeed^[([demoObstacle].map (advanceObstacle 1)).countP (fun o => decide (15 < o.z))]
              demoPlayingService.speed)) ∧
    initState.gs.speed ≤ 2.5 :=
  ⟨⟨rfl, despawn_scoring_and_speed_cap.1 1 [demoObstacle] demoPlayingService rfl⟩,
    despawn_scoring_and_speed_cap.2 initState ⟨[], rfl⟩⟩

/-- C3: every reachable state keeps `speed` within `[1.0, 2.5]` — so the
`spawnDelay = obstacleSpawnRate / speed` computation never divides by a
zero or near-zero value and is positive — and along any event sequence
taken entirely in the `PLAYING` status the speed is monotonically
non-decreasing. -/
theorem speed_bounds_and_monotonicity :
    (∀ s : CompState, Reachable s →
      1 ≤ s.gs.speed ∧ s.gs.speed ≤ 2.5 ∧ 0 < obstacleSpawnRate / s.gs.speed) ∧
    (∀ (s : CompState) (evs : List Event), Reachable s → PlayingTrace s evs →
      s.gs.speed ≤ (evs.foldl step s).gs.speed) := by
  constructor
  · intro s hr
    have h := inv_reachable hr
    refine ⟨h.1, h.2.1, ?_⟩
    have hpos : 0 < s.gs.speed := lt_of_lt_of_le one_pos h.1
    exact div_pos (by norm_num [obstacleSpawnRate]) hpos
  · intro s evs hr hpt
    exact playingTrace_speed_mono evs s hr hpt

/-- Witness for C3: the initial state's bounds and a one-command playing
trace. -/
theorem speed_bounds_and_monotonicity_witness :
    (1 ≤ initState.gs.speed ∧ initState.gs.speed ≤ 2.5 ∧
      0 < obstacleSpawnRate / initState.gs.speed) ∧
    startedState.gs.speed ≤ (([Event.keyJump]).foldl step startedState).gs.speed :=
  ⟨speed_bounds_and_monotonicity.1 initState ⟨[], rfl⟩,
    speed_bounds_and_monotonicity.2 startedState [Event.keyJump] ⟨[Event.uiStart], rfl⟩
      ⟨by decide, show (step startedState Event.keyJump).gs.status = .PLAYING by decide⟩⟩

lemma applyLaneCmd_mem (s : CompState) (c : LaneCmd)
    (h : s.currentLane ∈ ([-1, 0, 1] : List ℤ)) :
    (applyLaneCmd s c).currentLane ∈ ([-1, 0, 1] : List ℤ) := by
  unfold applyLaneCmd changeLane
  dsimp only
  split
  · rename_i hcond
    simp only [List.mem_cons, List.not_mem_nil, or_false] at *
    omega
  · exact h

lemma foldl_laneCmd_mem (cmds : List LaneCmd) :
    ∀ s : CompState, s.currentLane ∈ ([-1, 0, 1] : List ℤ) →
      (cmds.foldl applyLaneCmd s).currentLane ∈ ([-1, 0, 1] : List ℤ) := by
  induction cmds with
  | nil => intro s h; exact h
  | cons c rest ih => intro s h; exact ih _ (applyLaneCmd_mem s c h)

/-- C4: starting from any lane in `{-1,0,1}` (in particular the initial
lane `0`), every MoveLeft/MoveRight sequence keeps the lane in
`{-1,0,1}`; an accepted command changes the lane by exactly its ±1
direction; a command that would pass an extreme lane is a complete no-op
(the state — in particular `currentLane` and `targetX` — is unchanged). -/
theorem lane_clamp_invariant :
    (∀ (s : CompState) (cmds : List LaneCmd),
        s.currentLane ∈ ([-1, 0, 1] : List ℤ) →
        (cmds.foldl applyLaneCmd s).currentLane ∈ ([-1, 0, 1] : List ℤ)) ∧
    (∀ (s : CompState) (c : LaneCmd),
        applyLaneCmd s c = s ∨
        ((applyLaneCmd s c).currentLane = s.currentLane + laneCmdDir c ∧
          (laneCmdDir c = 1 ∨ laneCmdDir c = -1))) ∧
    (∀ (s : CompState) (c : LaneCmd),
        ¬(-1 ≤ s.currentLane + laneCmdDir c ∧ s.currentLane + laneCmdDir c ≤ 1) →
        applyLaneCmd s c = s) := by
  refine ⟨fun s cmds h => foldl_laneCmd_mem cmds s h, ?_, ?_⟩
  · intro s c
    unfold applyLaneCmd changeLane
    dsimp only
    split
    · right
      exact ⟨rfl, by cases c <;> simp [laneCmdDir]⟩
    · left
      rfl
  · intro s c h
    unfold applyLaneCmd changeLane
    dsimp only
    rw [if_neg h]

/-- Witness for C4 at the initial lane and at the leftmost lane. -/
theorem lane_clamp_invariant_witness :
    (initState.currentLane ∈ ([-1, 0, 1] : List ℤ) ∧
      (([LaneCmd.moveLeft, LaneCmd.moveLeft].foldl applyLaneCmd initState).currentLane
        ∈ ([-1, 0, 1] : List ℤ))) ∧
    (applyLaneCmd initState .moveLeft = initState ∨
      ((applyLaneCmd initState .moveLeft).currentLane = initState.currentLane + laneCmdDir .moveLeft ∧
        (laneCmdDir .moveLeft = 1 ∨ laneCmdDir .moveLeft = -1))) ∧
    (¬(-1 ≤ leftmostState.currentLane + laneCmdDir .moveLeft ∧
        leftmostState.currentLane + laneCmdDir .moveLeft ≤ 1) ∧
      applyLaneCmd leftmostState .moveLeft = leftmostState) :=
  ⟨⟨by decide, lane_clamp_invariant.1 initState [.moveLeft, .moveLeft] (by decide)⟩,
    lane_clamp_invariant.2.1 initState .moveLeft,
    ⟨by decide, lane_clamp_invariant.2.2 leftmostState .moveLeft (by decide)⟩⟩

/-- C5: a Jump issued while airborne leaves the whole component state
unchanged (in particular `jumpVelocity`); a Jump while grounded sets
`jumpVelocity = jumpForce` and `isJumping = true` and changes nothing
else. -/
theorem jump_semantics (s : CompState) :
    (s.isJumping = true → jump s = s) ∧
    (s.isJumping = false → jump s = { s with isJumping := true, jumpVelocity := jumpForce }) := by
  constructor
  · intro h
    unfold jump
    rw [if_pos h]
  · intro h
    unfold jump
    rw [if_neg (by simp [h])]

/-- Witness for C5: a concrete airborne state and the grounded initial
state. -/
theorem jump_semantics_witness :
    (airborneState.isJumping = true ∧ jump airborneState = airborneState) ∧
    (initState.isJumping = false ∧
      jump initState = { initState with isJumping := true, jumpVelocity := jumpForce }) :=
  ⟨⟨by decide, (jump_semantics airborneState).1 (by decide)⟩,
    ⟨rfl, (jump_semantics initState).2 rfl⟩⟩

/-- C6: from a grounded state (`playerY = 0`, not airborne) followed by
one Jump, iterating `updatePlayer` — for any fixed `deltaTime` and any
run-bob oracle values — returns the player to `playerY = 0` with
`isJumping = false` within a bounded number (51) of ticks, and
`playerY ≥ 0` holds after every tick of the arc. -/
theorem jump_arc_bounded (dt : ℚ) (bobs : ℕ → ℚ) (s : CompState)
    (h0 : s.playerY = 0) (hj : s.isJumping = false) :
    ((arc dt bobs (jump s) 51).playerY = 0 ∧ (arc dt bobs (jump s) 51).isJumping = false) ∧
    (∀ k, k ≤ 51 → 0 ≤ (arc dt bobs (jump s) k).playerY) := by
  have hfin := arc_vert dt bobs s h0 hj 51 (le_refl _)
  rw [vstep_lands] at hfin
  constructor
  · constructor
    · have := congrArg (fun t : ℚ × ℚ × Bool => t.1) hfin
      simpa using this
    · have := congrArg (fun t : ℚ × ℚ × Bool => t.2.2) hfin
      simpa using this
  · intro k hk
    have h := arc_vert dt bobs s h0 hj k hk
    have hy : (arc dt bobs (jump s) k).playerY = ((vstep 0)^[k] jumpStart).1 := by
      have := congrArg (fun t : ℚ × ℚ × Bool => t.1) h
      simpa using this
    rw [hy]
    exact vstep_nonneg ⟨k, by omega⟩

/-- Witness for C6: the concrete arc from the initial (grounded) state. -/
theorem jump_arc_bounded_witness :
    (initState.playerY = 0 ∧ initState.isJumping = false) ∧
    ((arc deltaTime (fun _ => 0) (jump initState) 51).playerY = 0 ∧
      (arc deltaTime (fun _ => 0) (jump initState) 51).isJumping = false) ∧
    0 ≤ (arc deltaTime (fun _ => 0) (jump initState) 10).playerY :=
  ⟨⟨rfl, rfl⟩,
    (jump_arc_bounded deltaTime (fun _ => 0) initState rfl rfl).1,
    (jump_arc_bounded deltaTime (fun _ => 0) initState rfl rfl).2 10 (by norm_num)⟩

/-- C10: when the session status is not `'PLAYING'`, `incrementScore`
leaves the whole service state unchanged — neither `score` nor `speed`
moves, so despawn rewards cannot accrue in the menu or game-over
screens. -/
theorem incrementScore_noop_outside_playing (g : GameStateService) (amount : ℚ)
    (h : g.status ≠ .PLAYING) : g.incrementScore amount = g :=
  GameStateService.incrementScore_not_playing amount g h

/-- Witness for C10 at a menu-state service with nonzero score and
speed. -/
theorem incrementScore_noop_outside_playing_witness :
    demoMenuService.status ≠ .PLAYING ∧
    GameStateService.incrementScore 50 demoMenuService = demoMenuService :=
  ⟨by decide, incrementScore_noop_outside_playing demoMenuService 50 (by decide)⟩

lemma set_lastGameStatus_self (s : CompState) (h : s.lastGameStatus = .PLAYING) :
    ({ s with lastGameStatus := .PLAYING } : CompState) = s := by
  cases s
  simp_all

lemma animate_crash_tick (env : TickEnv) (s : CompState)
    (hp : s.gs.status = .PLAYING) (hl : s.lastGameStatus = .PLAYING)
    (hc : crashHit env (tickPhysics env s) = true) :
    animate env s = handleCrash (tickPhysics env s) := by
  unfold animate
  simp only [hp]
  rw [if_neg (by simp [hl])]
  rw [set_lastGameStatus_self s hl]
  unfold playingTick
  dsimp only
  rw [if_pos hc]

/-- C7 (amended): on the tick in which a collision is detected the
session status is set to `GAME_OVER` and the obstacles, score, speed and
the player's lateral/depth position are left as-is, but the crash handler
additionally applies a fixed crash pose to the player in the same call:
`rotation.x = -π/2` (π-coefficient `-(1/2)`) and `position.y = 0.2`. -/
theorem crash_sets_gameover_with_pose :
    (∀ s : CompState,
      (handleCrash s).gs.status = .GAME_OVER ∧
      (handleCrash s).obstacles = s.obstacles ∧
      (handleCrash s).gs.score = s.gs.score ∧
      (handleCrash s).gs.speed = s.gs.speed ∧
      (handleCrash s).posX = s.posX ∧
      (handleCrash s).posZ = s.posZ ∧
      (handleCrash s).rotXpi = -(1/2) ∧
      (handleCrash s).posY = 0.2) ∧
    (∀ (env : TickEnv) (s : CompState),
      s.gs.status = .PLAYING → s.lastGameStatus = .PLAYING →
      crashHit env (tickPhysics env s) = true →
      animate env s = handleCrash (tickPhysics env s)) :=
  ⟨fun _ => ⟨rfl, rfl, rfl, rfl, rfl, rfl, rfl, rfl⟩, animate_crash_tick⟩

/-- C7 counterexample: the crash handler (the very call that performs the
`Playing → GameOver` status change) does modify the player's orientation
and vertical position: at a concrete playing state the pitch coefficient
moves from `0` to `-(1/2)` and `position.y` from `0` to `0.2`, refuting
"the player's positions are left as-is". -/
theorem crash_pose_counterexample :
    (handleCrash crashState).gs.status = .GAME_OVER ∧
    (handleCrash crashState).obstacles = crashState.obstacles ∧
    crashState.rotXpi = 0 ∧ crashState.posY = 0 ∧
    (handleCrash crashState).rotXpi ≠ crashState.rotXpi ∧
    (handleCrash crashState).posY ≠ crashState.posY := by
  refine ⟨rfl, rfl, rfl, rfl, ?_, ?_⟩
  · show (-(1/2) : ℚ) ≠ crashState.rotXpi
    norm_num [crashState, initState]
  · show (0.2 : ℚ) ≠ crashState.posY
    norm_num [crashState, initState]

lemma crashHit_concrete : crashHit crashEnv (tickPhysics crashEnv crashState) = true := by
  norm_num [crashHit, tickPhysics, moveObstacles, advanceObstacle, spawnObstacle, updatePlayer,
    crashEnv, crashState, initState, deltaTime, obstacleSpawnRate, gravity, List.any, abs_lt]

/-- Witness for C7 at the concrete crash tick. -/
theorem crash_sets_gameover_with_pose_witness :
    ((handleCrash crashState).gs.status = .GAME_OVER ∧
      (handleCrash crashState).obstacles = crashState.obstacles ∧
      (handleCrash crashState).gs.score = crashState.gs.score ∧
      (handleCrash crashState).gs.speed = crashState.gs.speed ∧
      (handleCrash crashState).posX = crashState.posX ∧
      (handleCrash crashState).posZ = crashState.posZ ∧
      (handleCrash crashState).rotXpi = -(1/2) ∧
      (handleCrash crashState).posY = 0.2) ∧
    (crashState.gs.status = .PLAYING ∧ crashState.lastGameStatus = .PLAYING ∧
      animate crashEnv crashState = handleCrash (tickPhysics crashEnv crashState)) :=
  ⟨crash_sets_gameover_with_pose.1 crashState,
    ⟨rfl, rfl, crash_sets_gameover_with_pose.2 crashEnv crashState rfl rfl crashHit_concrete⟩⟩

lemma intersectsBox_iff (a b : Box3) :
    intersectsBox a b = true ↔
      (a.minX ≤ b.maxX ∧ b.minX ≤ a.maxX ∧ a.minY ≤ b.maxY ∧ b.minY ≤ a.maxY ∧
        a.minZ ≤ b.maxZ ∧ b.minZ ≤ a.maxZ) := by
  unfold intersectsBox
  simp [not_or, not_lt, and_assoc]

lemma checkCollisionsPlane_eq_find (pBox : Box3) (l : List ObstacleHit) :
    checkCollisionsPlane pBox l
      = l.find? (fun o => intersectsBox (shrinkPlayerBoxPlane pBox) (shrinkObstacleBoxPlane o.box)) := by
  induction l with
  | nil => rfl
  | cons o rest ih =>
    cases hc : intersectsBox (shrinkPlayerBoxPlane pBox) (shrinkObstacleBoxPlane o.box) with
    | true => simp [checkCollisionsPlane, List.find?_cons, hc]
    | false => simp [checkCollisionsPlane, List.find?_cons, hc, ih]

lemma checkCollisionsCat_eq_find (pX pZ : ℚ) (pBox : Box3) (l : List ObstacleHit) :
    checkCollisionsCat pX pZ pBox l
      = l.find? (fun o => decide (|o.z - pZ| < 1.5) && decide (|o.x - pX| < 1.0) &&
          intersectsBox (shrinkPlayerBoxCat pBox) (shrinkObstacleBoxCat o.box)) := by
  induction l with
  | nil => rfl
  | cons o rest ih =>
    by_cases h1 : |o.z - pZ| < 1.5
    · by_cases h2 : |o.x - pX| < 1.0
      · cases hc : intersectsBox (shrinkPlayerBoxCat pBox) (shrinkObstacleBoxCat o.box) with
        | true => simp [checkCollisionsCat, List.find?_cons, h1, h2, hc]
        | false => simp [checkCollisionsCat, List.find?_cons, h1, h2, hc, ih]
      · simp [checkCollisionsCat, List.find?_cons, h1, h2, ih]
    · simp [checkCollisionsCat, List.find?_cons, h1, ih]

/-- C8 (amended): two boxes collide iff their ranges overlap on all three
axes, and in both variants the obstacle box is shrunk on the lateral and
depth axes by `0.2` before testing.  In the plane variant the player box
is shrunk on every axis (`0.3` laterally, `0.2` vertically and in depth)
and the reported collision is the first intersecting obstacle in pool
order.  In the cat variant the player box is shrunk only on the lateral
and depth axes (by `0.4`), and the reported collision is the first
obstacle in pool order that both lies within the center-distance gates
(`|Δz| < 1.5` and `|Δx| < 1.0`) and passes the shrunk-box test. -/
theorem collision_detector_characterization :
    (∀ a b : Box3, intersectsBox a b = true ↔
      (a.minX ≤ b.maxX ∧ b.minX ≤ a.maxX ∧ a.minY ≤ b.maxY ∧ b.minY ≤ a.maxY ∧
        a.minZ ≤ b.maxZ ∧ b.minZ ≤ a.maxZ)) ∧
    (∀ (pBox : Box3) (l : List ObstacleHit),
      checkCollisionsPlane pBox l
        = l.find? (fun o => intersectsBox (shrinkPlayerBoxPlane pBox) (shrinkObstacleBoxPlane o.box))) ∧
    (∀ (pX pZ : ℚ) (pBox : Box3) (l : List ObstacleHit),
      checkCollisionsCat pX pZ pBox l
        = l.find? (fun o => decide (|o.z - pZ| < 1.5) && decide (|o.x - pX| < 1.0) &&
            intersectsBox (shrinkPlayerBoxCat pBox) (shrinkObstacleBoxCat o.box))) :=
  ⟨intersectsBox_iff, checkCollisionsPlane_eq_find, checkCollisionsCat_eq_find⟩

/-- C8 counterexample: in the cat variant the player box is not shrunk on
the vertical axis, and an obstacle whose shrunk boxes do intersect on all
three axes is nevertheless not reported because its center is `1.1`
lateral units away (outside the `|Δx| < 1.0` gate) — so the reported
collision is not "the first intersecting obstacle in pool order". -/
theorem collision_gate_counterexample :
    intersectsBox (shrinkPlayerBoxCat demoPlayerBox) (shrinkObstacleBoxCat demoGateObstacle.box) = true ∧
    checkCollisionsCat 0 0 demoPlayerBox [demoGateObstacle] = none ∧
    (shrinkPlayerBoxCat demoPlayerBox).minY = demoPlayerBox.minY ∧
    (shrinkPlayerBoxCat demoPlayerBox).maxY = demoPlayerBox.maxY := by
  refine ⟨?_, ?_, rfl, rfl⟩
  · norm_num [intersectsBox, shrinkPlayerBoxCat, shrinkObstacleBoxCat, demoPlayerBox,
      demoGateObstacle]
  · norm_num [checkCollisionsCat, demoPlayerBox, demoGateObstacle, abs_lt]

/-- C9: collision detection is deterministic — two invocations of either
variant's `checkCollisions` logic on equal player data and equal obstacle
lists return the same result; the shrink margins are part of the tested
predicate, so they are applied before every box test in both runs. -/
theorem collision_detection_deterministic :
    (∀ (pX pZ pX2 pZ2 : ℚ) (pBox pBox2 : Box3) (l l2 : List ObstacleHit),
      pX = pX2 → pZ = pZ2 → pBox = pBox2 → l = l2 →
      checkCollisionsCat pX pZ pBox l = checkCollisionsCat pX2 pZ2 pBox2 l2) ∧
    (∀ (pBox pBox2 : Box3) (l l2 : List ObstacleHit), pBox = pBox2 → l = l2 →
      checkCollisionsPlane pBox l = checkCollisionsPlane pBox2 l2) := by
  constructor
  · intro pX pZ pX2 pZ2 pBox pBox2 l l2 h1 h2 h3 h4
    rw [h1, h2, h3, h4]
  · intro pBox pBox2 l l2 h1 h2
    rw [h1, h2]

/-- Witness for C9: two identical concrete invocations of each variant. -/
theorem collision_detection_deterministic_witness :
    checkCollisionsCat 0 0 demoPlayerBox [demoGateObstacle]
      = checkCollisionsCat 0 0 demoPlayerBox [demoGateObstacle] ∧
    checkCollisionsPlane demoPlayerBox [demoGateObstacle]
      = checkCollisionsPlane demoPlayerBox [demoGateObstacle] :=
  ⟨collision_detection_deterministic.1 0 0 0 0 demoPlayerBox demoPlayerBox
      [demoGateObstacle] [demoGateObstacle] rfl rfl rfl rfl,
    collision_detection_deterministic.2 demoPlayerBox demoPlayerBox
      [demoGateObstacle] [demoGateObstacle] rfl rfl⟩
